import Mathlib

/-!
Shallow embedding of the watch-lifecycle and notification-formatting core of
the LnXBuyBot repository (src/unnamed/part_001, src/config/index.js,
src/blockchain-monitor.js), together with theorems settling the frozen
claims about it.

Conventions of the embedding:
* JavaScript numbers produced by `parseFloat` are modelled as `Option ℚ`,
  where `none` models `NaN`; every `NaN < x` comparison is `false`, exactly
  as in JavaScript.
* The process-wide mutable objects (`activeListeners`, the in-memory `db`)
  become explicit state (`BotState`) threaded through the lifecycle
  functions.
* The Telegram delivery sink and the interval timers become explicit
  parameters / step relations; a thrown JS exception becomes an
  `Except`/`Option` error value.
-/

namespace LnXBuyBot

/-- `config.scannerUrls` from src/config/index.js: explorer base URLs per
network. -/
structure ScannerUrls where
  BNB : String
  Solana : String
  ETH : String
deriving DecidableEq, Repr

/-- The fallback values of `config.scannerUrls` in src/config/index.js
(lines 46-50), used when the corresponding environment variables are
absent. -/
def defaultScannerUrls : ScannerUrls :=
  { BNB := "https://bscscan.com/tx/"
    Solana := "https://solscan.io/tx/"
    ETH := "https://etherscan.io/tx/" }

/-- The `{name, symbol}` token identity stored in `groupConfig.tokenInfo`. -/
structure TokenInfo where
  name : String
  symbol : String
deriving DecidableEq, Repr

/-- The group configuration saved by `finalizeSetup` (src/unnamed/part_001,
lines 517-527), restricted to the fields the monitoring/notification code
reads.  `chain` is the raw string tag (`"BNB"` or `"Solana"`), compared with
`=== 'BNB'` in the source; `tokenInfo` is optional because
`sendBuyNotification` guards it with `groupConfig.tokenInfo || {...}`. -/
structure GroupConfig where
  chain : String
  tokenAddress : String
  tokenInfo : Option TokenInfo
  emoji : String
  imageFileId : String
deriving DecidableEq, Repr

/-- A purchase event as passed to the `sendBuyNotification` callback
(src/unnamed/part_001, lines 913-919): all amount fields arrive as
strings. -/
structure Tx where
  hash : String
  tokenAmount : String
  nativeAmount : String
  usdAmount : String
  buyer : String
deriving DecidableEq, Repr

/-- Longest prefix of decimal digits, returned as digit values, together
with the unread remainder (the digit-scanning part of JS `parseFloat`). -/
def takeDigits : List Char → List Nat × List Char
  | [] => ([], [])
  | c :: cs =>
    if c.isDigit then
      let p := takeDigits cs
      ((c.toNat - 48) :: p.1, p.2)
    else ([], c :: cs)

/-- Value of a digit list read in base 10. -/
def digitsVal (ds : List Nat) : Nat := ds.foldl (fun a d => a * 10 + d) 0

/-- ASCII whitespace skipped by JS `parseFloat` before the number. -/
def isSpaceChar (c : Char) : Bool := c == ' ' || c == '\t' || c == '\n' || c == '\r'

/-- Optional exponent part of a JS float literal (`e`/`E`, optional sign,
digits); an exponent marker without digits contributes exponent 0, as JS
`parseFloat` ignores the unparsable tail. -/
def expVal : List Char → Int
  | [] => 0
  | c :: rest =>
    if c == 'e' || c == 'E' then
      match rest with
      | '-' :: r2 => -(digitsVal (takeDigits r2).1 : Int)
      | '+' :: r2 => (digitsVal (takeDigits r2).1 : Int)
      | r2 => (digitsVal (takeDigits r2).1 : Int)
    else 0

/-- Syntactic stage of JS `parseFloat`: greedily read an optional sign, an
integer digit run, an optional fractional digit run and an optional
exponent from the front of the string, ignoring any trailing garbage.
Returns `none` (NaN) when no digit was read, i.e. for strings that do not
parse to a number.  (The special literal `Infinity` is not modelled; no
claim exercises it.) -/
def parseDecimal (l0 : List Char) : Option (Bool × List Nat × List Nat × Int) :=
  let l1 := l0.dropWhile isSpaceChar
  let sgn : Bool × List Char :=
    match l1 with
    | '-' :: rest => (true, rest)
    | '+' :: rest => (false, rest)
    | _ => (false, l1)
  let ip := takeDigits sgn.2
  let fp : List Nat × List Char :=
    match ip.2 with
    | '.' :: rest => takeDigits rest
    | _ => ([], ip.2)
  if ip.1 = [] ∧ fp.1 = [] then none
  else some (sgn.1, ip.1, fp.1, expVal fp.2)

/-- Numeric value of a parsed decimal: `±(digits).(digits) · 10^exp`. -/
def decValue (p : Bool × List Nat × List Nat × Int) : ℚ :=
  let mant : ℚ := (digitsVal (p.2.1 ++ p.2.2.1) : ℚ) / (10 : ℚ) ^ (p.2.2.1.length)
  let v : ℚ := mant * (10 : ℚ) ^ (p.2.2.2)
  if p.1 then -v else v

/-- JS `parseFloat`, modelled over exact rationals; `none` models `NaN`. -/
def parseFloat (s : String) : Option ℚ := (parseDecimal s.data).map decValue

/-- The JS `<` comparison against a possibly-NaN number: `NaN < y` is
`false`. -/
def jsLtQ : Option ℚ → ℚ → Bool
  | none, _ => false
  | some x, y => decide (x < y)

/-- Emoji repetition count of `sendBuyNotification` (src/unnamed/part_001,
lines 1055-1067): `usdValue < 50 → 1`, `< 200 → 3`, `< 1000 → 5`, else 10
(maximum 10 for whale buys).  A NaN `usdValue` fails every comparison and
lands in the final `else`. -/
def emojiCount (v : Option ℚ) : Nat :=
  if jsLtQ v 50 then 1
  else if jsLtQ v 200 then 3
  else if jsLtQ v 1000 then 5
  else 10

/-- JS `String.prototype.repeat`: `n` concatenated copies of `s`. -/
def strRepeat (s : String) (n : Nat) : String :=
  match n with
  | 0 => ""
  | Nat.succ m => s ++ strRepeat s m

/-- The chain-specific native currency label of `sendBuyNotification`
(src/unnamed/part_001, line 1077): `chain === 'BNB' ? 'BNB' : 'SOL'`. -/
def nativeCurrency (chain : String) : String :=
  if chain == "BNB" then "BNB" else "SOL"

/-- The transaction-explorer URL of `sendBuyNotification`
(src/unnamed/part_001, lines 1072-1074): the network's scanner base URL
concatenated with the raw transaction hash. -/
def explorerUrl (urls : ScannerUrls) (chain : String) (hash : String) : String :=
  if chain == "BNB" then urls.BNB ++ hash else urls.Solana ++ hash

/-- The caption built by `sendBuyNotification` (src/unnamed/part_001,
lines 1050-1087): tokenInfo defaults to `{name: 'Unknown Token',
symbol: 'TOKEN'}` when absent, the emoji line repeats the configured emoji
`emojiCount` times, and the body lists amounts, buyer and the explorer
link.  A pure function of its arguments. -/
def renderCaption (urls : ScannerUrls) (cfg : GroupConfig) (tx : Tx) (isSample : Bool) : String :=
  let tokenInfo := cfg.tokenInfo.getD { name := "Unknown Token", symbol := "TOKEN" }
  let emojiString := strRepeat cfg.emoji (emojiCount (parseFloat tx.usdAmount))
  "<b>NEW BUY" ++ (if isSample then " (SAMPLE)" else "") ++ "</b>\n" ++
  emojiString ++ "\n\n" ++
  "🔄 <b>" ++ tokenInfo.name ++ " (" ++ tokenInfo.symbol ++ ")</b>\n\n" ++
  "💰 Amount: <b>" ++ tx.tokenAmount ++ " " ++ tokenInfo.symbol ++ "</b>\n" ++
  "🪙 Value: <b>" ++ tx.nativeAmount ++ " " ++ nativeCurrency cfg.chain ++ "</b> ($" ++ tx.usdAmount ++ ")\n" ++
  "👤 Buyer: <code>" ++ tx.buyer ++ "</code>\n\n" ++
  "🔗 <a href=\"" ++ explorerUrl urls cfg.chain tx.hash ++ "\">View Transaction</a>"

/-- Error vocabulary of the notification formatter named by the
specification; the source's caption construction has no throw site for a
missing token identity, so this error is never produced. -/
inductive FormatError
  | IncompleteConfig
deriving DecidableEq, Repr

/-- The formatting stage of `sendBuyNotification` viewed as a fallible
operation: the source substitutes fallback token identity instead of
throwing, so it always succeeds with the rendered caption. -/
def renderFormat (urls : ScannerUrls) (cfg : GroupConfig) (tx : Tx) (isSample : Bool) :
    Except FormatError String :=
  Except.ok (renderCaption urls cfg tx isSample)

/-- One `sendBuyNotification` call (src/unnamed/part_001, lines 1041-1119):
renders the caption, attempts delivery through the sink (`sendPhoto`), and
catches any delivery error, returning it as logged data instead of
propagating it.  `sinkOk` is whether the delivery sink succeeds on this
call. -/
def sendBuyNotification (urls : ScannerUrls) (cfg : GroupConfig) (tx : Tx) (isSample : Bool)
    (sinkOk : Bool) : String × Option String :=
  let caption := renderCaption urls cfg tx isSample
  match (if sinkOk then Except.ok () else Except.error "delivery failed" : Except String Unit) with
  | Except.ok _ => (caption, none)
  | Except.error e => (caption, some e)

/-- A registered listener: the opaque feed handle is identified by the
fresh id it was created with, together with the configuration whose feed
parameters it uses. -/
structure Watch where
  id : Nat
  config : GroupConfig
deriving DecidableEq, Repr

/-- The process-wide mutable state of src/unnamed/part_001 made explicit:
the in-memory `db.groups`, the `activeListeners` object (an assoc list of
listener key to listener), the set of listener ids whose `stop()` has been
invoked, and a fresh-id counter for newly created feed handles. -/
structure BotState where
  groups : List (String × GroupConfig)
  activeListeners : List (String × Watch)
  stopped : List Nat
  nextId : Nat
deriving DecidableEq, Repr

/-- The listener key of `startBlockchainListener` (src/unnamed/part_001,
line 804): `` `${groupId}_${groupConfig.tokenAddress}` ``. -/
def listenerKey (groupId : String) (tokenAddress : String) : String :=
  groupId ++ "_" ++ tokenAddress

/-- `db.saveGroup` (src/config/index.js, lines 79-82): merge the new group
data over the existing entry. -/
def saveGroup (groupId : String) (cfg : GroupConfig) (s : BotState) : BotState :=
  { s with groups := (groupId, cfg) :: s.groups.filter (fun p => !(p.1 == groupId)) }

/-- `startBlockchainListener` (src/unnamed/part_001, lines 795-848): if a
listener is already registered under `` `${groupId}_${tokenAddress}` ``,
call its `stop()` and delete it; then create the chain-appropriate DEX
monitor and store it under that key.  (Both chain branches store a listener
whose feed parameters come from `cfg`; the JS object holds at most one
property per key, modelled by deleting every entry with the key before
inserting.) -/
def startBlockchainListener (groupId : String) (cfg : GroupConfig) (s : BotState) : BotState :=
  let key := listenerKey groupId cfg.tokenAddress
  let s1 :=
    match s.activeListeners.find? (fun p => p.1 == key) with
    | some p =>
      { s with stopped := p.2.id :: s.stopped,
               activeListeners := s.activeListeners.filter (fun q => !(q.1 == key)) }
    | none => s
  { s1 with activeListeners := (key, ⟨s1.nextId, cfg⟩) :: s1.activeListeners,
            nextId := s1.nextId + 1 }

/-- `stopBlockchainListener` (src/unnamed/part_001, lines 854-868): for
every registered key that starts with `` `${groupId}_` ``, call the
listener's `stop()` and delete the entry.  The listeners created by the
monitors stop by `clearInterval`, which cannot throw, so each iteration's
`try` block completes; the surrounding per-key `catch` makes the whole
call total either way. -/
def stopBlockchainListener (groupId : String) (s : BotState) : BotState :=
  { s with
    activeListeners := s.activeListeners.filter (fun p => !(p.1.startsWith (groupId ++ "_"))),
    stopped := s.stopped ++
      (s.activeListeners.filter (fun p => p.1.startsWith (groupId ++ "_"))).map (fun p => p.2.id) }

/-- `finalizeSetup` (src/unnamed/part_001, lines 514-574) restricted to its
state effects: save the group configuration, then start the blockchain
listener.  It never calls `stopBlockchainListener`. -/
def finalizeSetup (groupId : String) (cfg : GroupConfig) (s : BotState) : BotState :=
  startBlockchainListener groupId cfg (saveGroup groupId cfg s)

/-- A feed's interval callbacks delivering successive purchase events to
`sendBuyNotification`, with the per-call try/catch of the source: each
event is rendered and delivery attempted; a failed delivery is recorded
(logged) and swallowed, and the bot state is untouched.  `sink n` tells
whether the n-th delivery attempt succeeds. -/
def processEvents (urls : ScannerUrls) (sink : Nat → Bool) (cfg : GroupConfig) (s : BotState) :
    List Tx → Nat → BotState × List (String × Option String)
  | [], _ => (s, [])
  | tx :: rest, n =>
    let r := sendBuyNotification urls cfg tx false (sink n)
    let pr := processEvents urls sink cfg s rest (n + 1)
    (pr.1, r :: pr.2)

/-- The control handle returned by `monitorBnbDexSwaps` /
`monitorSolanaDexSwaps` (src/unnamed/part_001, lines 926-932;
src/blockchain-monitor.js, lines 93-99): an interval that is either armed
or cleared. -/
structure FeedHandle where
  active : Bool
deriving DecidableEq, Repr

/-- The handle's `stop()`: `clearInterval` (and `running = false` in
src/blockchain-monitor.js) — the interval never fires again. -/
def FeedHandle.stop (_f : FeedHandle) : FeedHandle := { active := false }

/-- The freshly created monitor handle: the interval is armed. -/
def monitorHandle : FeedHandle := { active := true }

/-- Environment steps applied to a feed handle: an interval firing with an
optionally generated event (the `Math.random` draw made explicit), or an
invocation of the handle's `stop()`. -/
inductive FeedOp
  | tick (ev : Option Tx)
  | stop

/-- One step of the feed: a tick emits its candidate event only while the
interval is armed; `stop` clears the interval and emits nothing. -/
def FeedHandle.step : FeedHandle → FeedOp → FeedHandle × List Tx
  | f, FeedOp.tick ev => (f, if f.active then ev.toList else [])
  | f, FeedOp.stop => (f.stop, [])

/-- A run of the feed over a list of environment steps, collecting every
emitted purchase event. -/
def FeedHandle.run : FeedHandle → List FeedOp → FeedHandle × List Tx
  | f, [] => (f, [])
  | f, op :: ops =>
    let p := f.step op
    let pr := p.1.run ops
    (pr.1, p.2 ++ pr.2)

/-- Concrete bot state used to instantiate theorems: nothing registered. -/
def botState0 : BotState := { groups := [], activeListeners := [], stopped := [], nextId := 0 }

/-- Concrete group configuration used to instantiate theorems. -/
def sampleCfg : GroupConfig :=
  { chain := "BNB", tokenAddress := "0xT", tokenInfo := some { name := "Alpha", symbol := "ALP" },
    emoji := "🚀", imageFileId := "default" }

/-- `sampleCfg` with a different token address. -/
def cfgOtherToken : GroupConfig :=
  { chain := "Solana", tokenAddress := "So1Token", tokenInfo := some { name := "Beta", symbol := "BET" },
    emoji := "💎", imageFileId := "default" }

/-- `sampleCfg` with the token identity absent. -/
def cfgNoIdentity : GroupConfig :=
  { chain := "BNB", tokenAddress := "0xT", tokenInfo := none,
    emoji := "🚀", imageFileId := "default" }

/-- Concrete purchase event used to instantiate theorems. -/
def sampleTx : Tx :=
  { hash := "0xabc", tokenAmount := "100", nativeAmount := "1.0", usdAmount := "75.00",
    buyer := "0xbuyer" }

/-- `sampleTx` with an unparsable USD amount (JS `parseFloat` gives NaN). -/
def txNanUsd : Tx :=
  { hash := "0xabc", tokenAmount := "100", nativeAmount := "1.0", usdAmount := "abc",
    buyer := "0xbuyer" }

/-- Strings with equal character data are equal. -/
theorem string_eq_of_data_eq {a b : String} (h : a.data = b.data) : a = b := by
  cases a; cases b; exact congrArg String.mk h

/-- Listener keys with the same group id and distinct token addresses are
distinct (the key embeds the token address injectively). -/
theorem listenerKey_inj {g a b : String} (h : listenerKey g a = listenerKey g b) : a = b := by
  have h2 := congrArg String.data h
  simp only [listenerKey, String.data_append] at h2
  exact string_eq_of_data_eq (List.append_cancel_left h2)

/-- Filtering out the entries satisfying `p` leaves none satisfying `p`. -/
theorem countP_filter_not {α : Type} (p : α → Bool) (l : List α) :
    (l.filter (fun a => !(p a))).countP p = 0 := by
  rw [List.countP_eq_zero]
  intro a ha
  have h := (List.mem_filter.mp ha).2
  simp only [Bool.not_eq_true'] at h
  simp [h]

/-- Filtering by `p` after filtering by `¬ p` yields the empty list. -/
theorem filter_not_filter {α : Type} (p : α → Bool) (l : List α) :
    (l.filter (fun a => !(p a))).filter p = [] := by
  rw [List.filter_eq_nil_iff]
  intro a ha
  have h := (List.mem_filter.mp ha).2
  simp only [Bool.not_eq_true'] at h
  simp [h]

/-- Filtering by the same predicate twice is filtering once. -/
theorem filter_not_idem {α : Type} (p : α → Bool) (l : List α) :
    (l.filter (fun a => !(p a))).filter (fun a => !(p a)) = l.filter (fun a => !(p a)) := by
  rw [List.filter_filter]
  have h : (fun a => !(p a) && !(p a)) = (fun a => !(p a)) := funext fun a => Bool.and_self _
  rw [h]

/-- C2: the emoji repetition count realises exactly the claimed USD
buckets — `usd < 50 → 1`, `50 ≤ usd < 200 → 3`, `200 ≤ usd < 1000 → 5`,
`usd ≥ 1000 → 10` — and is never more than 10 on any input. -/
theorem emoji_tier_buckets (v : ℚ) :
    (v < 50 → emojiCount (some v) = 1) ∧
    (50 ≤ v → v < 200 → emojiCount (some v) = 3) ∧
    (200 ≤ v → v < 1000 → emojiCount (some v) = 5) ∧
    (1000 ≤ v → emojiCount (some v) = 10) ∧
    (∀ w : Option ℚ, emojiCount w ≤ 10) := by
  refine ⟨?_, ?_, ?_, ?_, ?_⟩
  · intro h
    simp only [emojiCount, jsLtQ, decide_eq_true_eq]
    rw [if_pos h]
  · intro h1 h2
    simp only [emojiCount, jsLtQ, decide_eq_true_eq]
    rw [if_neg (by linarith), if_pos h2]
  · intro h1 h2
    simp only [emojiCount, jsLtQ, decide_eq_true_eq]
    rw [if_neg (by linarith), if_neg (by linarith), if_pos h2]
  · intro h
    simp only [emojiCount, jsLtQ, decide_eq_true_eq]
    rw [if_neg (by linarith), if_neg (by linarith), if_neg (by linarith)]
  · intro w
    cases w with
    | none => simp [emojiCount, jsLtQ]
    | some x =>
      simp only [emojiCount, jsLtQ, decide_eq_true_eq]
      split_ifs <;> norm_num

/-- C2 witness: the five concrete USD strings of the claim land in the
claimed tiers. -/
theorem emoji_tier_buckets_witness :
    emojiCount (parseFloat "49.99") = 1 ∧ emojiCount (parseFloat "50.00") = 3 ∧
    emojiCount (parseFloat "199.99") = 3 ∧ emojiCount (parseFloat "1000.00") = 10 ∧
    emojiCount (parseFloat "999999") = 10 := by
  have h1 : parseFloat "49.99" = some (4999 / 100) := by
    have h : parseDecimal "49.99".data = some (false, [4, 9], [9, 9], 0) := by decide
    simp [parseFloat, h, decValue, digitsVal]
    norm_num
  have h2 : parseFloat "50.00" = some 50 := by
    have h : parseDecimal "50.00".data = some (false, [5, 0], [0, 0], 0) := by decide
    simp [parseFloat, h, decValue, digitsVal]
    norm_num
  have h3 : parseFloat "199.99" = some (19999 / 100) := by
    have h : parseDecimal "199.99".data = some (false, [1, 9, 9], [9, 9], 0) := by decide
    simp [parseFloat, h, decValue, digitsVal]
    norm_num
  have h4 : parseFloat "1000.00" = some 1000 := by
    have h : parseDecimal "1000.00".data = some (false, [1, 0, 0, 0], [0, 0], 0) := by decide
    simp [parseFloat, h, decValue, digitsVal]
    norm_num
  have h5 : parseFloat "999999" = some 999999 := by
    have h : parseDecimal "999999".data = some (false, [9, 9, 9, 9, 9, 9], [], 0) := by decide
    simp [parseFloat, h, decValue, digitsVal]
  refine ⟨?_, ?_, ?_, ?_, ?_⟩
  · rw [h1]; exact (emoji_tier_buckets (4999 / 100)).1 (by norm_num)
  · rw [h2]; exact (emoji_tier_buckets 50).2.1 (by norm_num) (by norm_num)
  · rw [h3]; exact (emoji_tier_buckets (19999 / 100)).2.1 (by norm_num) (by norm_num)
  · rw [h4]; exact (emoji_tier_buckets 1000).2.2.2.1 (by norm_num)
  · rw [h5]; exact (emoji_tier_buckets 999999).2.2.2.1 (by norm_num)

/-- C10: when the USD amount string does not parse to a number (JS
`parseFloat` yields NaN), every comparison in the tier chain is false and
the rendered caption repeats the configured emoji exactly 10 times. -/
theorem nan_usd_renders_max_tier (urls : ScannerUrls) (cfg : GroupConfig) (tx : Tx)
    (isSample : Bool) (h : parseFloat tx.usdAmount = none) :
    emojiCount (parseFloat tx.usdAmount) = 10 ∧
    ∃ pre post, renderCaption urls cfg tx isSample = pre ++ (strRepeat cfg.emoji 10 ++ post) := by
  constructor
  · rw [h]; simp [emojiCount, jsLtQ]
  · refine ⟨"<b>NEW BUY" ++ (if isSample then " (SAMPLE)" else "") ++ "</b>\n",
      "\n\n🔄 <b>" ++ (cfg.tokenInfo.getD { name := "Unknown Token", symbol := "TOKEN" }).name ++
      " (" ++ (cfg.tokenInfo.getD { name := "Unknown Token", symbol := "TOKEN" }).symbol ++
      ")</b>\n\n💰 Amount: <b>" ++ tx.tokenAmount ++ " " ++
      (cfg.tokenInfo.getD { name := "Unknown Token", symbol := "TOKEN" }).symbol ++
      "</b>\n🪙 Value: <b>" ++ tx.nativeAmount ++ " " ++ nativeCurrency cfg.chain ++
      "</b> ($" ++ tx.usdAmount ++ ")\n👤 Buyer: <code>" ++ tx.buyer ++
      "</code>\n\n🔗 <a href=\"" ++ explorerUrl urls cfg.chain tx.hash ++
      "\">View Transaction</a>", ?_⟩
    have h10 : emojiCount (parseFloat tx.usdAmount) = 10 := by
      rw [h]; simp [emojiCount, jsLtQ]
    simp only [renderCaption, h10]
    simp [String.append_assoc]

/-- C10 witness: for the concrete unparsable USD string `"abc"` the caption
contains the emoji repeated 10 times. -/
theorem nan_usd_renders_max_tier_witness :
    emojiCount (parseFloat txNanUsd.usdAmount) = 10 ∧
    ∃ pre post, renderCaption defaultScannerUrls sampleCfg txNanUsd false =
      pre ++ (strRepeat sampleCfg.emoji 10 ++ post) :=
  nan_usd_renders_max_tier defaultScannerUrls sampleCfg txNanUsd false (by
    have h : parseDecimal "abc".data = none := by decide
    simp [txNanUsd, parseFloat, h])

/-- C7: the rendered notification payload is a pure, deterministic function
of the scanner configuration, group configuration, purchase event and
sample flag: identical inputs give byte-identical output. -/
theorem render_deterministic (u1 u2 : ScannerUrls) (c1 c2 : GroupConfig) (t1 t2 : Tx)
    (b1 b2 : Bool) (hu : u1 = u2) (hc : c1 = c2) (ht : t1 = t2) (hb : b1 = b2) :
    renderCaption u1 c1 t1 b1 = renderCaption u2 c2 t2 b2 := by
  subst hu; subst hc; subst ht; subst hb; rfl

/-- C7 witness at a concrete input. -/
theorem render_deterministic_witness :
    renderCaption defaultScannerUrls sampleCfg sampleTx false =
      renderCaption defaultScannerUrls sampleCfg sampleTx false :=
  render_deterministic defaultScannerUrls defaultScannerUrls sampleCfg sampleCfg sampleTx sampleTx
    false false rfl rfl rfl rfl

/-- C3 counterexample: at a concrete configuration whose `tokenInfo` is
absent, the formatter does not fail with `IncompleteConfig` — it succeeds,
substituting the fallback token identity. -/
theorem formatter_succeeds_without_identity :
    cfgNoIdentity.tokenInfo = none ∧
    renderFormat defaultScannerUrls cfgNoIdentity sampleTx false =
      Except.ok (renderCaption defaultScannerUrls cfgNoIdentity sampleTx false) :=
  ⟨rfl, rfl⟩

/-- C3 amended: the formatter never fails; when `tokenInfo` is absent it
renders with the fallback identity `{name: 'Unknown Token', symbol:
'TOKEN'}` instead of raising `IncompleteConfig`, and it succeeds on every
input (it is a pure function: no I/O, no mutation). -/
theorem formatter_never_fails (urls : ScannerUrls) (cfg : GroupConfig) (tx : Tx)
    (isSample : Bool) :
    (∃ out, renderFormat urls cfg tx isSample = Except.ok out) ∧
    (cfg.tokenInfo = none →
      renderCaption urls cfg tx isSample =
        renderCaption urls
          { cfg with tokenInfo := some { name := "Unknown Token", symbol := "TOKEN" } }
          tx isSample) := by
  constructor
  · exact ⟨_, rfl⟩
  · intro h
    simp [renderCaption, h]

/-- C3 amended witness: the fallback substitution at the concrete
identity-less configuration. -/
theorem formatter_never_fails_witness :
    renderCaption defaultScannerUrls cfgNoIdentity sampleTx false =
      renderCaption defaultScannerUrls
        { cfgNoIdentity with tokenInfo := some { name := "Unknown Token", symbol := "TOKEN" } }
        sampleTx false :=
  (formatter_never_fails defaultScannerUrls cfgNoIdentity sampleTx false).2 rfl

/-- C8: the caption carries the chain's native currency label (`"BNB"` for
chain `"BNB"`, `"SOL"` otherwise) and the explorer URL obtained by
concatenating the configured explorer base with the raw transaction hash;
in particular the BNB URL for hash `"0xabc"` is the BNB base followed by
`"0xabc"`. -/
theorem caption_native_currency_and_explorer (urls : ScannerUrls) (cfg : GroupConfig) (tx : Tx)
    (isSample : Bool) :
    nativeCurrency "BNB" = "BNB" ∧
    (∀ c : String, c ≠ "BNB" → nativeCurrency c = "SOL") ∧
    explorerUrl urls "BNB" tx.hash = urls.BNB ++ tx.hash ∧
    explorerUrl defaultScannerUrls "BNB" "0xabc" = "https://bscscan.com/tx/0xabc" ∧
    (∃ pre post, renderCaption urls cfg tx isSample = pre ++ (nativeCurrency cfg.chain ++ post)) ∧
    (∃ pre post, renderCaption urls cfg tx isSample =
      pre ++ (explorerUrl urls cfg.chain tx.hash ++ post)) := by
  refine ⟨rfl, ?_, by simp [explorerUrl], by rfl, ?_, ?_⟩
  · intro c h
    simp [nativeCurrency, h]
  · refine ⟨"<b>NEW BUY" ++ (if isSample then " (SAMPLE)" else "") ++ "</b>\n" ++
      strRepeat cfg.emoji (emojiCount (parseFloat tx.usdAmount)) ++ "\n\n🔄 <b>" ++
      (cfg.tokenInfo.getD { name := "Unknown Token", symbol := "TOKEN" }).name ++ " (" ++
      (cfg.tokenInfo.getD { name := "Unknown Token", symbol := "TOKEN" }).symbol ++
      ")</b>\n\n💰 Amount: <b>" ++ tx.tokenAmount ++ " " ++
      (cfg.tokenInfo.getD { name := "Unknown Token", symbol := "TOKEN" }).symbol ++
      "</b>\n🪙 Value: <b>" ++ tx.nativeAmount ++ " ",
      "</b> ($" ++ tx.usdAmount ++ ")\n👤 Buyer: <code>" ++ tx.buyer ++
      "</code>\n\n🔗 <a href=\"" ++ explorerUrl urls cfg.chain tx.hash ++
      "\">View Transaction</a>", ?_⟩
    simp only [renderCaption]
    simp [String.append_assoc]
  · refine ⟨"<b>NEW BUY" ++ (if isSample then " (SAMPLE)" else "") ++ "</b>\n" ++
      strRepeat cfg.emoji (emojiCount (parseFloat tx.usdAmount)) ++ "\n\n🔄 <b>" ++
      (cfg.tokenInfo.getD { name := "Unknown Token", symbol := "TOKEN" }).name ++ " (" ++
      (cfg.tokenInfo.getD { name := "Unknown Token", symbol := "TOKEN" }).symbol ++
      ")</b>\n\n💰 Amount: <b>" ++ tx.tokenAmount ++ " " ++
      (cfg.tokenInfo.getD { name := "Unknown Token", symbol := "TOKEN" }).symbol ++
      "</b>\n🪙 Value: <b>" ++ tx.nativeAmount ++ " " ++ nativeCurrency cfg.chain ++
      "</b> ($" ++ tx.usdAmount ++ ")\n👤 Buyer: <code>" ++ tx.buyer ++
      "</code>\n\n🔗 <a href=\"",
      "\">View Transaction</a>", ?_⟩
    simp only [renderCaption]
    simp [String.append_assoc]

/-- C8 witness: the non-BNB branch of the native-currency label at a
concrete chain tag. -/
theorem caption_native_currency_and_explorer_witness :
    nativeCurrency "Solana" = "SOL" :=
  (caption_native_currency_and_explorer defaultScannerUrls sampleCfg sampleTx false).2.1
    "Solana" (by decide)

/-- C4: delivery failures are swallowed — however the sink behaves, a run
of feed events leaves the bot state (so the registry and its watches)
untouched, and every event, including those after a failed delivery, is
rendered and its delivery attempted. -/
theorem delivery_failure_isolated (urls : ScannerUrls) (sink : Nat → Bool) (cfg : GroupConfig)
    (s : BotState) (txs : List Tx) (n : Nat) :
    (processEvents urls sink cfg s txs n).1 = s ∧
    ((processEvents urls sink cfg s txs n).2).map Prod.fst =
      txs.map (fun tx => renderCaption urls cfg tx false) := by
  induction txs generalizing n with
  | nil => simp [processEvents]
  | cons tx rest ih =>
    have h := ih (n + 1)
    cases hs : sink n <;>
      simp [processEvents, sendBuyNotification, hs, h.1, h.2]

/-- Once the interval is cleared, a feed run emits no events and stays
cleared. -/
theorem run_inactive (ops : List FeedOp) : ∀ f : FeedHandle, f.active = false →
    (f.run ops).2 = [] ∧ (f.run ops).1.active = false := by
  induction ops with
  | nil =>
    intro f h
    simp [FeedHandle.run, h]
  | cons op rest ih =>
    intro f h
    cases op with
    | tick ev =>
      have h2 := ih f h
      simp [FeedHandle.run, FeedHandle.step, h, h2.1, h2.2]
    | stop =>
      have h2 := ih (FeedHandle.stop f) rfl
      simp [FeedHandle.run, FeedHandle.step, h2.1, h2.2]

/-- C6: after a feed handle's `stop()` has returned, no tick of the
environment makes it emit a purchase event — every subsequent run emits
the empty event list, so nothing reaches delivery for that handle. -/
theorem no_events_after_stop (f : FeedHandle) (ops : List FeedOp) :
    ((FeedHandle.stop f).run ops).2 = [] :=
  (run_inactive ops (FeedHandle.stop f) rfl).1

/-- The listener list, fresh-id and key-uniqueness shape of a single
`startBlockchainListener` call: the new watch (with the state's fresh id
and the given config) sits at the head, and no other entry carries its
key. -/
theorem start_shape (groupId : String) (cfg : GroupConfig) (s : BotState) :
    ∃ T : List (String × Watch),
      (startBlockchainListener groupId cfg s).activeListeners
        = (listenerKey groupId cfg.tokenAddress, ⟨s.nextId, cfg⟩) :: T ∧
      (∀ p ∈ T, (p.1 == listenerKey groupId cfg.tokenAddress) = false) ∧
      (startBlockchainListener groupId cfg s).nextId = s.nextId + 1 := by
  cases h : s.activeListeners.find? (fun p => p.1 == listenerKey groupId cfg.tokenAddress) with
  | none =>
    refine ⟨s.activeListeners, ?_, ?_, ?_⟩
    · simp [startBlockchainListener, h]
    · intro p hp
      have h2 := List.find?_eq_none.mp h p hp
      simpa using h2
    · simp [startBlockchainListener, h]
  | some q =>
    refine ⟨s.activeListeners.filter
      (fun q2 => !(q2.1 == listenerKey groupId cfg.tokenAddress)), ?_, ?_, ?_⟩
    · simp [startBlockchainListener, h]
    · intro p hp
      have h2 := (List.mem_filter.mp hp).2
      simpa using h2
    · simp [startBlockchainListener, h]

/-- C1: starting a watch for a key that is already live replaces it
atomically — after `start(key, cfgA)` then `start(key, cfgB)` the registry
holds exactly one entry for the key, that entry is the watch created for
`cfgB`, the watch created for `cfgA` was registered in between, and its
listener id received the `stop()` call. -/
theorem start_replaces_existing (groupId : String) (cfgA cfgB : GroupConfig) (s : BotState)
    (hAB : cfgA.tokenAddress = cfgB.tokenAddress) :
    ((startBlockchainListener groupId cfgB (startBlockchainListener groupId cfgA s)).activeListeners.countP
        (fun p => p.1 == listenerKey groupId cfgB.tokenAddress) = 1) ∧
    ((startBlockchainListener groupId cfgB (startBlockchainListener groupId cfgA s)).activeListeners.find?
        (fun p => p.1 == listenerKey groupId cfgB.tokenAddress)
      = some (listenerKey groupId cfgB.tokenAddress, ⟨s.nextId + 1, cfgB⟩)) ∧
    ((startBlockchainListener groupId cfgA s).activeListeners.find?
        (fun p => p.1 == listenerKey groupId cfgB.tokenAddress)
      = some (listenerKey groupId cfgB.tokenAddress, ⟨s.nextId, cfgA⟩)) ∧
    s.nextId ∈ (startBlockchainListener groupId cfgB (startBlockchainListener groupId cfgA s)).stopped := by
  obtain ⟨T, hL, hT, hN⟩ := start_shape groupId cfgA s
  rw [hAB] at hL hT
  set s1 : BotState := startBlockchainListener groupId cfgA s with hs1
  have hF : s1.activeListeners.find? (fun p => p.1 == listenerKey groupId cfgB.tokenAddress)
      = some (listenerKey groupId cfgB.tokenAddress, ⟨s.nextId, cfgA⟩) := by
    rw [hL]
    exact List.find?_cons_of_pos _ (by simp)
  have hTT : T.filter (fun q => !(q.1 == listenerKey groupId cfgB.tokenAddress)) = T :=
    List.filter_eq_self.mpr (fun a ha => by simp [hT a ha])
  have hL2 : (startBlockchainListener groupId cfgB s1).activeListeners
      = (listenerKey groupId cfgB.tokenAddress, ⟨s.nextId + 1, cfgB⟩) :: T := by
    simp only [startBlockchainListener, hF]
    rw [hL]
    simp [List.filter_cons, hTT, hN]
  refine ⟨?_, ?_, hF, ?_⟩
  · rw [hL2, List.countP_cons_of_pos _ _ (by simp)]
    rw [List.countP_eq_zero.mpr (fun a ha => by simp [hT a ha])]
  · rw [hL2]
    exact List.find?_cons_of_pos _ (by simp)
  · simp only [startBlockchainListener, hF]
    simp

/-- C1 witness: the replacement scenario at concrete inputs — two starts
for the same group and token address from the empty state. -/
theorem start_replaces_existing_witness :
    ((startBlockchainListener "g" sampleCfg (startBlockchainListener "g" cfgNoIdentity botState0)).activeListeners.countP
        (fun p => p.1 == listenerKey "g" sampleCfg.tokenAddress) = 1) ∧
    ((startBlockchainListener "g" sampleCfg (startBlockchainListener "g" cfgNoIdentity botState0)).activeListeners.find?
        (fun p => p.1 == listenerKey "g" sampleCfg.tokenAddress)
      = some (listenerKey "g" sampleCfg.tokenAddress, ⟨botState0.nextId + 1, sampleCfg⟩)) ∧
    ((startBlockchainListener "g" cfgNoIdentity botState0).activeListeners.find?
        (fun p => p.1 == listenerKey "g" sampleCfg.tokenAddress)
      = some (listenerKey "g" sampleCfg.tokenAddress, ⟨botState0.nextId, cfgNoIdentity⟩)) ∧
    botState0.nextId ∈ (startBlockchainListener "g" sampleCfg (startBlockchainListener "g" cfgNoIdentity botState0)).stopped :=
  start_replaces_existing "g" cfgNoIdentity sampleCfg botState0 rfl

/-- C5: `stopBlockchainListener` is idempotent and total — stopping twice
equals stopping once, afterwards no registered key belongs to the group,
and stopping a group with no registered listeners is a no-op. -/
theorem stop_idempotent_total (groupId : String) (s : BotState) :
    stopBlockchainListener groupId (stopBlockchainListener groupId s) =
      stopBlockchainListener groupId s ∧
    (∀ p ∈ (stopBlockchainListener groupId s).activeListeners,
      p.1.startsWith (groupId ++ "_") = false) ∧
    ((∀ p ∈ s.activeListeners, p.1.startsWith (groupId ++ "_") = false) →
      stopBlockchainListener groupId s = s) := by
  refine ⟨?_, ?_, ?_⟩
  · simp only [stopBlockchainListener]
    congr 1
    · exact filter_not_idem _ _
    · rw [filter_not_filter]
      simp
  · intro p hp
    have h := (List.mem_filter.mp hp).2
    simpa using h
  · intro h
    have h1 : s.activeListeners.filter (fun p => !(p.1.startsWith (groupId ++ "_")))
        = s.activeListeners :=
      List.filter_eq_self.mpr (fun a ha => by simp [h a ha])
    have h2 : s.activeListeners.filter (fun p => p.1.startsWith (groupId ++ "_")) = [] :=
      List.filter_eq_nil_iff.mpr (fun a ha => by simp [h a ha])
    simp [stopBlockchainListener, h1, h2]

/-- C5 witness: stopping a group with nothing registered is a no-op on the
concrete empty state. -/
theorem stop_idempotent_total_witness :
    stopBlockchainListener "g" botState0 = botState0 :=
  (stop_idempotent_total "g" botState0).2.2 (by simp [botState0])

/-- C9: completing setup for token A and then for a different token B in
the same group leaves both listeners registered — the replacement check
matches only the exact `(group, token)` key and `finalizeSetup` never
calls the per-group stop, so neither watch is stopped and both keep their
feeds. -/
theorem different_token_listeners_coexist (groupId : String) (cfgA cfgB : GroupConfig)
    (s : BotState) (hAB : cfgA.tokenAddress ≠ cfgB.tokenAddress)
    (hA : s.activeListeners.find? (fun p => p.1 == listenerKey groupId cfgA.tokenAddress) = none)
    (hB : s.activeListeners.find? (fun p => p.1 == listenerKey groupId cfgB.tokenAddress) = none) :
    ((finalizeSetup groupId cfgB (finalizeSetup groupId cfgA s)).activeListeners.find?
        (fun p => p.1 == listenerKey groupId cfgA.tokenAddress)
      = some (listenerKey groupId cfgA.tokenAddress, ⟨s.nextId, cfgA⟩)) ∧
    ((finalizeSetup groupId cfgB (finalizeSetup groupId cfgA s)).activeListeners.find?
        (fun p => p.1 == listenerKey groupId cfgB.tokenAddress)
      = some (listenerKey groupId cfgB.tokenAddress, ⟨s.nextId + 1, cfgB⟩)) ∧
    (finalizeSetup groupId cfgB (finalizeSetup groupId cfgA s)).stopped = s.stopped := by
  have hkAB : (listenerKey groupId cfgA.tokenAddress == listenerKey groupId cfgB.tokenAddress)
      = false :=
    beq_eq_false_iff_ne.mpr (fun h => hAB (listenerKey_inj h))
  have hkBA : (listenerKey groupId cfgB.tokenAddress == listenerKey groupId cfgA.tokenAddress)
      = false :=
    beq_eq_false_iff_ne.mpr (fun h => hAB (listenerKey_inj h.symm))
  set t1 : BotState := finalizeSetup groupId cfgA s with ht1
  have hA1 : t1.activeListeners
      = (listenerKey groupId cfgA.tokenAddress, ⟨s.nextId, cfgA⟩) :: s.activeListeners := by
    rw [ht1]
    simp [finalizeSetup, saveGroup, startBlockchainListener, hA]
  have hA2 : t1.stopped = s.stopped := by
    rw [ht1]
    simp [finalizeSetup, saveGroup, startBlockchainListener, hA]
  have hA3 : t1.nextId = s.nextId + 1 := by
    rw [ht1]
    simp [finalizeSetup, saveGroup, startBlockchainListener, hA]
  have hFB : (saveGroup groupId cfgB t1).activeListeners.find?
      (fun p => p.1 == listenerKey groupId cfgB.tokenAddress) = none := by
    simp only [saveGroup]
    rw [hA1, List.find?_cons_of_neg _ (by simp [hkAB])]
    exact hB
  have hL2 : (finalizeSetup groupId cfgB t1).activeListeners
      = (listenerKey groupId cfgB.tokenAddress, ⟨s.nextId + 1, cfgB⟩)
        :: (listenerKey groupId cfgA.tokenAddress, ⟨s.nextId, cfgA⟩) :: s.activeListeners := by
    simp only [finalizeSetup, startBlockchainListener, hFB]
    simp [saveGroup, hA1, hA3]
  refine ⟨?_, ?_, ?_⟩
  · rw [hL2, List.find?_cons_of_neg _ (by simp [hkBA]), List.find?_cons_of_pos _ (by simp)]
  · rw [hL2]
    exact List.find?_cons_of_pos _ (by simp)
  · simp only [finalizeSetup, startBlockchainListener, hFB]
    simp [saveGroup, hA2]

/-- C9 witness: two setups with different token addresses in the same group
from the empty state leave both listeners registered and stop nothing. -/
theorem different_token_listeners_coexist_witness :
    ((finalizeSetup "g" sampleCfg (finalizeSetup "g" cfgOtherToken botState0)).activeListeners.find?
        (fun p => p.1 == listenerKey "g" cfgOtherToken.tokenAddress)
      = some (listenerKey "g" cfgOtherToken.tokenAddress, ⟨botState0.nextId, cfgOtherToken⟩)) ∧
    ((finalizeSetup "g" sampleCfg (finalizeSetup "g" cfgOtherToken botState0)).activeListeners.find?
        (fun p => p.1 == listenerKey "g" sampleCfg.tokenAddress)
      = some (listenerKey "g" sampleCfg.tokenAddress, ⟨botState0.nextId + 1, sampleCfg⟩)) ∧
    (finalizeSetup "g" sampleCfg (finalizeSetup "g" cfgOtherToken botState0)).stopped
      = botState0.stopped :=
  different_token_listeners_coexist "g" cfgOtherToken sampleCfg botState0 (by decide) rfl rfl

end LnXBuyBot
